import Mathlib

/-!
# The KVM demo harness (`src/demo.c`): setup phase, run loop and exit switch

`src/demo.c` is one C function, `main`.  It talks to its environment only
through system calls (`open`, `ioctl`, `mmap`) and the C library (`putchar`,
`puts`, `err`, `errx`, `perror`).  The embedding below makes the environment
explicit: an `Env` records what every call returns, and `main` maps an `Env`
to the sequence of observable events the process performs, together with the
way the process ends.

Integers of the C program are `Nat`/`Int`; fixed-width conversions are written
out with `%`.  Bytes are `Fin 256`.
-/

namespace KvmDemo

/-- One byte of memory (`uint8_t`, `unsigned char`). -/
abbrev Byte := Fin 256

/-- Numeric constants of `<linux/kvm.h>` that `src/demo.c` uses by name.  The
header is not part of the repository, so the values are a parameter.  The four
exit reasons are the `case` labels of one `switch`, which C requires to be
pairwise different. -/
structure KvmConsts where
  KVM_EXIT_HLT : Nat
  KVM_EXIT_IO : Nat
  KVM_EXIT_FAIL_ENTRY : Nat
  KVM_EXIT_INTERNAL_ERROR : Nat
  KVM_EXIT_IO_OUT : Nat
  labels_distinct :
    [KVM_EXIT_HLT, KVM_EXIT_IO, KVM_EXIT_FAIL_ENTRY, KVM_EXIT_INTERNAL_ERROR].Nodup

/-- The values the Linux x86 user-space ABI gives these constants. -/
def linuxConsts : KvmConsts where
  KVM_EXIT_HLT := 5
  KVM_EXIT_IO := 2
  KVM_EXIT_FAIL_ENTRY := 9
  KVM_EXIT_INTERNAL_ERROR := 17
  KVM_EXIT_IO_OUT := 1
  labels_distinct := by decide

/-- The member `io` of the payload union of `struct kvm_run`
(`direction : __u8`, `size : __u8`, `port : __u16`, `count : __u32`,
`data_offset : __u64`). -/
structure KvmRunIo where
  direction : Nat
  size : Nat
  port : Nat
  count : Nat
  data_offset : Nat
deriving DecidableEq, Repr

/-- The part of `struct kvm_run` that `main` reads after `KVM_RUN`, and the
bytes of the whole shared mapping `run` points to (`mmap_size` bytes, as seen
through `(char *)run`). -/
structure KvmRun where
  exit_reason : Nat
  io : KvmRunIo
  hardware_entry_failure_reason : Nat
  suberror : Nat
  mapping : List Byte
deriving DecidableEq, Repr

/-- The fields of `struct kvm_userspace_memory_region` that `main` sets to
constants (lines 64-69). -/
structure MemoryRegion where
  slot : Nat
  guest_phys_addr : Nat
  memory_size : Nat
deriving DecidableEq, Repr

/-- The variable `region` of `main`, lines 64-69. -/
def region : MemoryRegion :=
  { slot := 0, guest_phys_addr := 0x1000, memory_size := 0x1000 }

/-- The registers of `struct kvm_regs` the guest program touches; the
initializer leaves every field it does not name at zero. -/
structure KvmRegs where
  rax : Nat
  rbx : Nat
  rdx : Nat
  rip : Nat
  rflags : Nat
deriving DecidableEq, Repr

/-- The variable `regs` of `main`, lines 98-103. -/
def regs : KvmRegs :=
  { rip := 0x1000, rax := 2, rbx := 2, rflags := 0x2, rdx := 0 }

/-- The fields of `struct kvm_sregs` that `main` overwrites before
`KVM_SET_SREGS` (lines 93-94); the rest is what `KVM_GET_SREGS` stored. -/
structure CodeSegment where
  base : Nat
  selector : Nat
deriving DecidableEq, Repr

/-- The values `main` gives `sregs.cs.base` and `sregs.cs.selector`. -/
def cs : CodeSegment :=
  { base := 0, selector := 0 }

/-- The calls `main` makes into the kernel and the allocator, in the order of
the source text, with the constant arguments the guest depends on. -/
inductive Call where
  | open_dev_kvm
  | KVM_GET_API_VERSION
  | KVM_CHECK_EXTENSION
  | KVM_CREATE_VM
  | mmap_mem
  | KVM_SET_USER_MEMORY_REGION (rg : MemoryRegion)
  | KVM_CREATE_VCPU
  | KVM_GET_VCPU_MMAP_SIZE
  | mmap_run
  | KVM_GET_SREGS
  | KVM_SET_SREGS (seg : CodeSegment)
  | KVM_SET_REGS (r : KvmRegs)
  | malloc_caps
  | KVM_MEMORY_ENCRYPT_OP
  | KVM_RUN
deriving DecidableEq, Repr

/-- What the process is seen to do. `putchar` and `puts` write to standard
output; `err`, `errx` and `perror` write a diagnostic to standard error, and
`err`/`errx` then end the process with the given status. -/
inductive Event where
  | call (c : Call)
  | putchar (b : Byte)
  | puts (s : String)
  | err (status : Int) (fmt : String)
  | errx (status : Int) (fmt : String) (args : List Int)
  | perror (s : String)
deriving DecidableEq, Repr

/-- How a run of the process ends: it exits with a status, it stays blocked in
a `KVM_RUN` that the environment never lets return, or it reaches a memory
access whose behaviour the C program does not define (a load or store through
`MAP_FAILED`, through a null pointer, or past the end of the run mapping). -/
inductive Status where
  | exited (status : Int)
  | blocked
  | undefined
deriving DecidableEq, Repr

/-- The events of a run of the process and the way it ends. -/
structure Result where
  trace : List Event
  status : Status
deriving DecidableEq, Repr

/-- What one pass through the `switch` decides: `break` (go round the loop
again), leave the process with a status, or undefined behaviour. -/
inductive Action where
  | next
  | exit (status : Int)
  | undefined
deriving DecidableEq, Repr

/-- The value of an lvalue of type `char` holding byte `b`, converted to `int`
(`char` is signed on x86). -/
def charToInt (b : Byte) : Int :=
  if b.val < 128 then (b.val : Int) else (b.val : Int) - 256

/-- The byte `putchar(c)` writes: `c` converted to `unsigned char`. -/
def putcharByte (c : Int) : Byte :=
  ⟨(c % 256).toNat, by omega⟩

/-- The `switch (run->exit_reason)` of `src/demo.c`, lines 138-157.  There is
no `default` label: any other exit reason leaves the `switch` and the loop goes
round again. -/
def dispatch (K : KvmConsts) (run : KvmRun) : Action × List Event :=
  if run.exit_reason = K.KVM_EXIT_HLT then
    (.exit 0, [.puts "KVM_EXIT_HLT"])
  else if run.exit_reason = K.KVM_EXIT_IO then
    if run.io.direction = K.KVM_EXIT_IO_OUT ∧ run.io.size = 1 ∧
        run.io.port = 0x3f8 ∧ run.io.count = 1 then
      match run.mapping.get? run.io.data_offset with
      | some b => (.next, [.putchar (putcharByte (charToInt b))])
      | none => (.undefined, [])
    else
      (.exit 1, [.errx 1 "unhandled KVM_EXIT_IO" []])
  else if run.exit_reason = K.KVM_EXIT_FAIL_ENTRY then
    (.exit 1, [.errx 1 "KVM_EXIT_FAIL_ENTRY: hardware_entry_failure_reason = 0x%llx"
      [(run.hardware_entry_failure_reason : Int)]])
  else if run.exit_reason = K.KVM_EXIT_INTERNAL_ERROR then
    (.exit 1, [.errx 1 "KVM_EXIT_INTERNAL_ERROR: suberror = 0x%x" [(run.suberror : Int)]])
  else
    (.next, [])

/-- What one `ioctl(vcpufd, KVM_RUN, NULL)` gives back: the return value of the
call and the contents of the run structure when it returns. -/
structure RunResult where
  ret : Int
  run : KvmRun
deriving DecidableEq, Repr

/-- Puts events in front of a result. -/
def Result.after (evs : List Event) (r : Result) : Result :=
  { trace := evs ++ r.trace, status := r.status }

/-- The `while (1)` loop of `src/demo.c`, lines 134-158.  The list holds what
the successive `KVM_RUN` calls return; the call after the last entry never
returns.  The return value of `ioctl` is not looked at. -/
def runLoop (K : KvmConsts) : List RunResult → Result
  | [] => { trace := [.call .KVM_RUN], status := .blocked }
  | r :: rest =>
    match dispatch K r.run with
    | (.next, evs) => (runLoop K rest).after (.call .KVM_RUN :: evs)
    | (.exit s, evs) => { trace := .call .KVM_RUN :: evs, status := .exited s }
    | (.undefined, evs) => { trace := .call .KVM_RUN :: evs, status := .undefined }

/-- What the environment answers to the calls of `main`: the return value of
every `ioctl` (and of `open`), whether each allocation succeeds, and what the
successive `KVM_RUN` calls give back. -/
structure Env where
  open_dev_kvm : Int
  get_api_version : Int
  check_extension : Int
  create_vm : Int
  mmap_mem_ok : Bool
  set_user_memory_region : Int
  create_vcpu : Int
  get_vcpu_mmap_size : Int
  mmap_run_ok : Bool
  get_sregs : Int
  set_sregs : Int
  set_regs : Int
  malloc_ok : Bool
  memory_encrypt_op : Int
  runs : List RunResult
deriving DecidableEq, Repr

/-- The function `main` of `src/demo.c`.  Only two return values are tested
before the loop (lines 33-36 and 42-45); the result of
`KVM_MEMORY_ENCRYPT_OP` is reported with `perror` and execution goes on; every
other return value is stored or dropped without a test.  A failed `mmap` or
`malloc` shows at the first access through the pointer: `memcpy(mem, ...)`,
`caps->nr_cpuid_configs = 6`, and `run->exit_reason` after the first
`KVM_RUN`. -/
def main (K : KvmConsts) (env : Env) : Result :=
  Result.after [.call .open_dev_kvm, .call .KVM_GET_API_VERSION] <|
  if env.get_api_version = -1 then
    { trace := [.err 1 "KVM_GET_API_VERSION"], status := .exited 1 }
  else if env.get_api_version ≠ 12 then
    { trace := [.errx 1 "KVM_GET_API_VERSION %d, expected 12" [env.get_api_version]],
      status := .exited 1 }
  else
  Result.after [.call .KVM_CHECK_EXTENSION] <|
  if env.check_extension = -1 then
    { trace := [.err 1 "KVM_CHECK_EXTENSION"], status := .exited 1 }
  else if env.check_extension = 0 then
    { trace := [.errx 1 "Required extension KVM_CAP_USER_MEMORY not available" []],
      status := .exited 1 }
  else
  Result.after [.call .KVM_CREATE_VM, .call .mmap_mem] <|
  if env.mmap_mem_ok = false then
    { trace := [], status := .undefined }
  else
  Result.after [.call (.KVM_SET_USER_MEMORY_REGION region), .call .KVM_CREATE_VCPU,
    .call .KVM_GET_VCPU_MMAP_SIZE, .call .mmap_run, .call .KVM_GET_SREGS,
    .call (.KVM_SET_SREGS cs), .call (.KVM_SET_REGS regs), .call .malloc_caps] <|
  if env.malloc_ok = false then
    { trace := [], status := .undefined }
  else
  Result.after (.call .KVM_MEMORY_ENCRYPT_OP ::
    (if env.memory_encrypt_op < 0 then [.perror "KVM_TDX_CAPABILITIES error"] else [])) <|
  if env.mmap_run_ok = false then
    match env.runs with
    | [] => { trace := [.call .KVM_RUN], status := .blocked }
    | _ :: _ => { trace := [.call .KVM_RUN], status := .undefined }
  else
    runLoop K env.runs

/-- The bytes written with `putchar`, in order: what the I/O-port console path
sends to standard output. -/
def consoleBytes : List Event → List Byte
  | [] => []
  | .putchar b :: evs => b :: consoleBytes evs
  | _ :: evs => consoleBytes evs

/-- The number of `KVM_RUN` calls in a trace. -/
def runCalls (evs : List Event) : Nat :=
  evs.count (.call .KVM_RUN)

/-- The condition of the `if` at lines 143-146, together with the `case` label
it stands under: an I/O exit that is a one-byte, single `out` to port 0x3f8. -/
def IsConsoleOut (K : KvmConsts) (run : KvmRun) : Prop :=
  run.exit_reason = K.KVM_EXIT_IO ∧ run.io.direction = K.KVM_EXIT_IO_OUT ∧
    run.io.size = 1 ∧ run.io.port = 0x3f8 ∧ run.io.count = 1

instance (K : KvmConsts) (run : KvmRun) : Decidable (IsConsoleOut K run) :=
  inferInstanceAs (Decidable (run.exit_reason = K.KVM_EXIT_IO ∧
    run.io.direction = K.KVM_EXIT_IO_OUT ∧ run.io.size = 1 ∧ run.io.port = 0x3f8 ∧
    run.io.count = 1))

/-- An exit reason that is none of the four `case` labels. -/
def IsUnrecognized (K : KvmConsts) (run : KvmRun) : Prop :=
  run.exit_reason ≠ K.KVM_EXIT_HLT ∧ run.exit_reason ≠ K.KVM_EXIT_IO ∧
    run.exit_reason ≠ K.KVM_EXIT_FAIL_ENTRY ∧ run.exit_reason ≠ K.KVM_EXIT_INTERNAL_ERROR

instance (K : KvmConsts) (run : KvmRun) : Decidable (IsUnrecognized K run) :=
  inferInstanceAs (Decidable (run.exit_reason ≠ K.KVM_EXIT_HLT ∧
    run.exit_reason ≠ K.KVM_EXIT_IO ∧ run.exit_reason ≠ K.KVM_EXIT_FAIL_ENTRY ∧
    run.exit_reason ≠ K.KVM_EXIT_INTERNAL_ERROR))

/-! ## The reference guest

The guest program `code`, its memory region `region` and its initial registers
`regs` are data of `main`, handed to the kernel in the setup calls.  What the virtual CPU does with them is not code of the repository;
the interpreter below covers exactly the six instruction encodings of `code`,
each with the meaning the source gives in the comment next to it, in the
16-bit real mode that `cs.base = 0`, `cs.selector = 0` leave the vCPU in. -/

/-- The array `code` of `src/demo.c`, lines 15-23 (`'0'` is 0x30, `'\n'` is 0x0a). -/
def code : List Byte :=
  [0xba, 0xf8, 0x03,
   0x00, 0xd8,
   0x04, 0x30,
   0xee,
   0xb0, 0x0a,
   0xee,
   0xf4]

/-- The page `mem` after `memcpy(mem, code, sizeof(code))`: an anonymous
mapping of 0x1000 zero bytes with `code` at offset 0 (lines 59-62). -/
def mem : List Byte :=
  code ++ List.replicate (0x1000 - code.length) 0

/-- Why the guest leaves `KVM_RUN`: an `out %al, (%dx)` or a `hlt`. -/
inductive GuestExit where
  | out (port : Nat) (al : Byte)
  | hlt
deriving DecidableEq, Repr

/-- The byte the guest reads at a guest-physical address: the region maps
`[guest_phys_addr, guest_phys_addr + memory_size)` onto the backing page. -/
def fetch (rg : MemoryRegion) (page : List Byte) (gpa : Nat) : Option Byte :=
  if rg.guest_phys_addr ≤ gpa ∧ gpa < rg.guest_phys_addr + rg.memory_size then
    page.get? (gpa - rg.guest_phys_addr)
  else none

/-- Replaces the low 8 bits of a register. -/
def setLow8 (r v : Nat) : Nat := r / 256 * 256 + v % 256

/-- Replaces the low 16 bits of a register. -/
def setLow16 (r v : Nat) : Nat := r / 65536 * 65536 + v % 65536

/-- The low byte (`%al`, `%bl`) of a register. -/
def low8 (r : Nat) : Byte := ⟨r % 256, Nat.mod_lt _ (by decide)⟩

/-- One guest instruction: the new registers and, for `out` and `hlt`, the
exit.  Arithmetic status flags are left as they are: no instruction of `code`
reads them.  Instruction bytes are fetched at `cs.base + ip`.  An encoding that
is not one of the six of `code`, or a fetch outside the region, gives `none`. -/
def guestStep (rg : MemoryRegion) (page : List Byte) (seg : CodeSegment) (r : KvmRegs) :
    Option (KvmRegs × Option GuestExit) :=
  let ip (n : Nat) : Nat := (r.rip + n) % 65536
  let byteAt (a : Nat) : Option Byte := fetch rg page (seg.base + a)
  match byteAt r.rip with
  | some 0xba =>
    match byteAt (ip 1), byteAt (ip 2) with
    | some lo, some hi =>
      some ({ r with rdx := setLow16 r.rdx (lo.val + 256 * hi.val), rip := ip 3 }, none)
    | _, _ => none
  | some 0x00 =>
    match byteAt (ip 1) with
    | some 0xd8 =>
      some ({ r with rax := setLow8 r.rax (r.rax % 256 + r.rbx % 256), rip := ip 2 }, none)
    | _ => none
  | some 0x04 =>
    match byteAt (ip 1) with
    | some imm => some ({ r with rax := setLow8 r.rax (r.rax % 256 + imm.val), rip := ip 2 }, none)
    | none => none
  | some 0xb0 =>
    match byteAt (ip 1) with
    | some imm => some ({ r with rax := setLow8 r.rax imm.val, rip := ip 2 }, none)
    | none => none
  | some 0xee => some ({ r with rip := ip 1 }, some (.out (r.rdx % 65536) (low8 r.rax)))
  | some 0xf4 => some ({ r with rip := ip 1 }, some .hlt)
  | _ => none

/-- One `KVM_RUN`: the guest runs until an instruction exits, for at most
`fuel` instructions. -/
def guestRun (rg : MemoryRegion) (page : List Byte) (seg : CodeSegment) :
    Nat → KvmRegs → Option (GuestExit × KvmRegs)
  | 0, _ => none
  | fuel + 1, r =>
    match guestStep rg page seg r with
    | none => none
    | some (r1, some e) => some (e, r1)
    | some (r1, none) => guestRun rg page seg fuel r1

/-- The exits of up to `n` successive `KVM_RUN` calls, each with an
instruction budget of `fuel`. -/
def guestExits (rg : MemoryRegion) (page : List Byte) (seg : CodeSegment) (fuel : Nat) :
    Nat → KvmRegs → List GuestExit
  | 0, _ => []
  | n + 1, r =>
    match guestRun rg page seg fuel r with
    | none => []
    | some (e, r1) => e :: guestExits rg page seg fuel n r1

/-- The run structure the kernel presents for a guest exit: the exit reason,
and for `out` the `io` payload with the data byte stored at `data_offset` of
the mapping.  `base` is the run structure before the exit. -/
def exitRun (K : KvmConsts) (off : Nat) (base : KvmRun) : GuestExit → RunResult
  | .out port al =>
    { ret := 0,
      run := { base with
        exit_reason := K.KVM_EXIT_IO,
        io := { direction := K.KVM_EXIT_IO_OUT, size := 1, port := port, count := 1,
                data_offset := off },
        mapping := base.mapping.set off al } }
  | .hlt => { ret := 0, run := { base with exit_reason := K.KVM_EXIT_HLT } }

/-- The events of handling console-out exits with data bytes `bs`: one
`KVM_RUN` and one `putchar` per byte, in order. -/
def consoleTrace : List Byte → List Event
  | [] => []
  | b :: bs => .call .KVM_RUN :: .putchar b :: consoleTrace bs

/-! ## Concrete inputs -/

/-- A run structure before any exit: all fields zero, a mapping of 8 zero
bytes. -/
def zeroRun : KvmRun :=
  { exit_reason := 0, io := { direction := 0, size := 0, port := 0, count := 0, data_offset := 0 },
    hardware_entry_failure_reason := 0, suberror := 0, mapping := List.replicate 8 0 }

/-- A console-out exit under the Linux constants: byte `b` at offset 4. -/
def consoleOutRun (b : Byte) : KvmRun :=
  (exitRun linuxConsts 4 zeroRun (.out 0x3f8 b)).run

/-- A halt exit under the Linux constants. -/
def haltRun : KvmRun :=
  (exitRun linuxConsts 4 zeroRun .hlt).run

/-- An exit with reason 8 (`KVM_EXIT_SHUTDOWN` in the Linux ABI), which is
none of the four `case` labels. -/
def shutdownRun : KvmRun :=
  { zeroRun with exit_reason := 8 }

/-- An I/O exit that reads (direction 0) one byte from port 0x3f8. -/
def consoleInRun : KvmRun :=
  { zeroRun with
    exit_reason := 2,
    io := { direction := 0, size := 1, port := 0x3f8, count := 1, data_offset := 4 } }

/-- An entry-failure exit with hardware reason 0x80000021. -/
def failEntryRun : KvmRun :=
  { zeroRun with exit_reason := 9, hardware_entry_failure_reason := 0x80000021 }

/-- An internal-error exit with suberror 1. -/
def internalErrorRun : KvmRun :=
  { zeroRun with exit_reason := 17, suberror := 1 }

/-- An environment in which every setup call succeeds (`KVM_MEMORY_ENCRYPT_OP`
apart, whose result does not stop `main`), with the given `KVM_RUN` results. -/
def goodEnv (runs : List RunResult) : Env :=
  { open_dev_kvm := 3, get_api_version := 12, check_extension := 1, create_vm := 4,
    mmap_mem_ok := true, set_user_memory_region := 0, create_vcpu := 5,
    get_vcpu_mmap_size := 8, mmap_run_ok := true, get_sregs := 0, set_sregs := 0,
    set_regs := 0, malloc_ok := true, memory_encrypt_op := -1, runs := runs }

/-- The successful environment, except that `KVM_SET_REGS` returns -1; the
guest then halts at once. -/
def setRegsFailsEnv : Env :=
  { goodEnv [{ ret := 0, run := haltRun }] with set_regs := -1 }

/-- A `KVM_RUN` script: a console-out exit with byte 0x41, then a call that
fails (returns -1) and leaves the run structure as it was, then a halt. -/
def failedResumeRuns : List RunResult :=
  [{ ret := 0, run := consoleOutRun 0x41 }, { ret := -1, run := consoleOutRun 0x41 },
   { ret := 0, run := haltRun }]

/-! ## Lemmas on the exit switch and the loop -/

/-- Reading a byte as `char` and handing it to `putchar` writes that byte. -/
theorem putcharByte_charToInt (b : Byte) : putcharByte (charToInt b) = b := by
  apply Fin.ext
  have hb := b.isLt
  unfold putcharByte charToInt
  split <;> simp only <;> omega

/-- The four `case` labels are pairwise different. -/
theorem KvmConsts.labels_ne (K : KvmConsts) :
    K.KVM_EXIT_HLT ≠ K.KVM_EXIT_IO ∧ K.KVM_EXIT_HLT ≠ K.KVM_EXIT_FAIL_ENTRY ∧
    K.KVM_EXIT_HLT ≠ K.KVM_EXIT_INTERNAL_ERROR ∧ K.KVM_EXIT_IO ≠ K.KVM_EXIT_FAIL_ENTRY ∧
    K.KVM_EXIT_IO ≠ K.KVM_EXIT_INTERNAL_ERROR ∧
    K.KVM_EXIT_FAIL_ENTRY ≠ K.KVM_EXIT_INTERNAL_ERROR := by
  have h := K.labels_distinct
  simp only [List.nodup_cons, List.mem_cons, List.mem_singleton, List.not_mem_nil,
    not_or, or_false, not_false_eq_true, List.nodup_nil, and_true] at h
  obtain ⟨⟨h1, h2, h3⟩, ⟨h4, h5⟩, h6⟩ := h
  exact ⟨h1, h2, h3, h4, h5, h6⟩

/-- A halt exit leaves the process with status 0 after the `puts` line. -/
theorem dispatch_hlt (K : KvmConsts) (run : KvmRun) (h : run.exit_reason = K.KVM_EXIT_HLT) :
    dispatch K run = (.exit 0, [.puts "KVM_EXIT_HLT"]) := by
  simp [dispatch, h]

/-- A console-out exit whose data offset holds byte `b` breaks with one `putchar b`. -/
theorem dispatch_console (K : KvmConsts) (run : KvmRun) (b : Byte)
    (h : IsConsoleOut K run) (hb : run.mapping.get? run.io.data_offset = some b) :
    dispatch K run = (.next, [.putchar b]) := by
  obtain ⟨h0, h1, h2, h3, h4⟩ := h
  have hne := K.labels_ne
  have hh : run.exit_reason ≠ K.KVM_EXIT_HLT := by rw [h0]; exact fun e => hne.1 e.symm
  unfold dispatch
  rw [if_neg hh, if_pos h0, if_pos ⟨h1, h2, h3, h4⟩, hb]
  simp only [putcharByte_charToInt]

/-- A console-out exit whose data offset lies past the mapping reads outside it. -/
theorem dispatch_console_out_of_range (K : KvmConsts) (run : KvmRun)
    (h : IsConsoleOut K run) (hb : run.mapping.length ≤ run.io.data_offset) :
    dispatch K run = (.undefined, []) := by
  obtain ⟨h0, h1, h2, h3, h4⟩ := h
  have hne := K.labels_ne
  have hh : run.exit_reason ≠ K.KVM_EXIT_HLT := by rw [h0]; exact fun e => hne.1 e.symm
  unfold dispatch
  rw [if_neg hh, if_pos h0, if_pos ⟨h1, h2, h3, h4⟩, List.get?_eq_none.mpr hb]

/-- An I/O exit failing the test of lines 143-146 takes the `errx` branch. -/
theorem dispatch_io_other (K : KvmConsts) (run : KvmRun)
    (h0 : run.exit_reason = K.KVM_EXIT_IO)
    (hbad : ¬ (run.io.direction = K.KVM_EXIT_IO_OUT ∧ run.io.size = 1 ∧
      run.io.port = 0x3f8 ∧ run.io.count = 1)) :
    dispatch K run = (.exit 1, [.errx 1 "unhandled KVM_EXIT_IO" []]) := by
  have hne := K.labels_ne
  have hh : run.exit_reason ≠ K.KVM_EXIT_HLT := by rw [h0]; exact fun e => hne.1 e.symm
  unfold dispatch
  rw [if_neg hh, if_pos h0, if_neg hbad]

/-- An entry-failure exit takes the `errx` of lines 152-153. -/
theorem dispatch_fail_entry (K : KvmConsts) (run : KvmRun)
    (h0 : run.exit_reason = K.KVM_EXIT_FAIL_ENTRY) :
    dispatch K run = (.exit 1,
      [.errx 1 "KVM_EXIT_FAIL_ENTRY: hardware_entry_failure_reason = 0x%llx"
        [(run.hardware_entry_failure_reason : Int)]]) := by
  have hne := K.labels_ne
  have hh : run.exit_reason ≠ K.KVM_EXIT_HLT := by rw [h0]; exact fun e => hne.2.1 e.symm
  have hi : run.exit_reason ≠ K.KVM_EXIT_IO := by rw [h0]; exact fun e => hne.2.2.2.1 e.symm
  unfold dispatch
  rw [if_neg hh, if_neg hi, if_pos h0]

/-- An internal-error exit takes the `errx` of lines 155-156. -/
theorem dispatch_internal_error (K : KvmConsts) (run : KvmRun)
    (h0 : run.exit_reason = K.KVM_EXIT_INTERNAL_ERROR) :
    dispatch K run = (.exit 1,
      [.errx 1 "KVM_EXIT_INTERNAL_ERROR: suberror = 0x%x" [(run.suberror : Int)]]) := by
  have hne := K.labels_ne
  have hh : run.exit_reason ≠ K.KVM_EXIT_HLT := by rw [h0]; exact fun e => hne.2.2.1 e.symm
  have hi : run.exit_reason ≠ K.KVM_EXIT_IO := by rw [h0]; exact fun e => hne.2.2.2.2.1 e.symm
  have hf : run.exit_reason ≠ K.KVM_EXIT_FAIL_ENTRY := by
    rw [h0]; exact fun e => hne.2.2.2.2.2 e.symm
  unfold dispatch
  rw [if_neg hh, if_neg hi, if_neg hf, if_pos h0]

/-- An exit reason with no `case` label falls out of the switch with no action. -/
theorem dispatch_unrecognized (K : KvmConsts) (run : KvmRun) (h : IsUnrecognized K run) :
    dispatch K run = (.next, []) := by
  obtain ⟨h1, h2, h3, h4⟩ := h
  unfold dispatch
  rw [if_neg h1, if_neg h2, if_neg h3, if_neg h4]

/-- When the switch breaks, the loop goes on with the next `KVM_RUN` result. -/
theorem runLoop_next (K : KvmConsts) (r : RunResult) (rest : List RunResult)
    (evs : List Event) (h : dispatch K r.run = (.next, evs)) :
    runLoop K (r :: rest) = (runLoop K rest).after (.call .KVM_RUN :: evs) := by
  simp only [runLoop, h]

/-- When the switch leaves the process, later `KVM_RUN` results play no part. -/
theorem runLoop_exit (K : KvmConsts) (r : RunResult) (rest : List RunResult)
    (s : Int) (evs : List Event) (h : dispatch K r.run = (.exit s, evs)) :
    runLoop K (r :: rest) = { trace := .call .KVM_RUN :: evs, status := .exited s } := by
  simp only [runLoop, h]

/-- The `putchar` bytes of a concatenation. -/
theorem consoleBytes_append (xs ys : List Event) :
    consoleBytes (xs ++ ys) = consoleBytes xs ++ consoleBytes ys := by
  induction xs with
  | nil => rfl
  | cons x xs ih => cases x <;> simp [consoleBytes, ih]

/-- The `KVM_RUN` count of a concatenation. -/
theorem runCalls_append (xs ys : List Event) :
    runCalls (xs ++ ys) = runCalls xs + runCalls ys := by
  simp [runCalls, List.count_append]

/-- Handling bytes `bs` writes exactly `bs`. -/
theorem consoleBytes_consoleTrace (bs : List Byte) : consoleBytes (consoleTrace bs) = bs := by
  induction bs with
  | nil => rfl
  | cons b bs ih => simp [consoleTrace, consoleBytes, ih]

/-- Handling bytes `bs` takes one `KVM_RUN` per byte. -/
theorem runCalls_consoleTrace (bs : List Byte) : runCalls (consoleTrace bs) = bs.length := by
  induction bs with
  | nil => rfl
  | cons b bs ih =>
    simp only [runCalls] at ih
    simp [consoleTrace, runCalls, List.count_cons, ih]

/-- An unrecognized exit is skipped: the loop issues the next `KVM_RUN`. -/
theorem runLoop_unrecognized (K : KvmConsts) (r : RunResult) (rest : List RunResult)
    (h : IsUnrecognized K r.run) :
    runLoop K (r :: rest) = (runLoop K rest).after [.call .KVM_RUN] :=
  runLoop_next K r rest [] (dispatch_unrecognized K r.run h)

/-- After a setup in which both tested calls pass and the three allocations
succeed, `main` is the setup calls followed by the run loop. -/
theorem main_setup_ok (K : KvmConsts) (env : Env)
    (hv : env.get_api_version = 12) (hx : env.check_extension ≠ -1)
    (hx0 : env.check_extension ≠ 0) (hmem : env.mmap_mem_ok = true)
    (hmalloc : env.malloc_ok = true) (hrun : env.mmap_run_ok = true) :
    main K env = (runLoop K env.runs).after
      ([.call .open_dev_kvm, .call .KVM_GET_API_VERSION, .call .KVM_CHECK_EXTENSION,
        .call .KVM_CREATE_VM, .call .mmap_mem, .call (.KVM_SET_USER_MEMORY_REGION region),
        .call .KVM_CREATE_VCPU, .call .KVM_GET_VCPU_MMAP_SIZE, .call .mmap_run,
        .call .KVM_GET_SREGS, .call (.KVM_SET_SREGS cs), .call (.KVM_SET_REGS regs),
        .call .malloc_caps, .call .KVM_MEMORY_ENCRYPT_OP] ++
        (if env.memory_encrypt_op < 0 then [.perror "KVM_TDX_CAPABILITIES error"] else [])) := by
  unfold main
  simp [hv, hx, hx0, hmem, hmalloc, hrun, Result.after]

/-- The run structure of an `out` to port 0x3f8 is a console-out exit with the
byte stored at the data offset. -/
theorem exitRun_out_console (K : KvmConsts) (off : Nat) (base : KvmRun) (b : Byte)
    (hoff : off < base.mapping.length) :
    IsConsoleOut K (exitRun K off base (.out 0x3f8 b)).run ∧
    (exitRun K off base (.out 0x3f8 b)).run.mapping.get?
      (exitRun K off base (.out 0x3f8 b)).run.io.data_offset = some b := by
  refine ⟨⟨rfl, rfl, rfl, rfl, rfl⟩, ?_⟩
  show (base.mapping.set off b).get? off = some b
  rw [List.get?_eq_getElem?, List.getElem?_set_self hoff]

/-- With a budget of at least four instructions per `KVM_RUN`, the first three
exits of the reference guest are the two `out`s and the `hlt`. -/
theorem guestExits_reference (fuel : Nat) (hf : 4 ≤ fuel) :
    guestExits region mem cs fuel 3 regs = [.out 0x3f8 52, .out 0x3f8 10, .hlt] := by
  obtain ⟨k, rfl⟩ := Nat.exists_eq_add_of_le hf
  rw [show 4 + k = k + 4 by omega]
  rfl

/-- The loop never looks at what `ioctl(vcpufd, KVM_RUN, NULL)` returns. -/
theorem runLoop_ignores_ret (K : KvmConsts) (rs : List RunResult) :
    runLoop K (rs.map fun r => { r with ret := -1 }) = runLoop K rs := by
  induction rs with
  | nil => rfl
  | cons r rs ih =>
    simp only [List.map_cons, runLoop, ih]

/-! ## The claims -/

/-- C1. An I/O exit with direction out, size 1, port 0x3f8 and count 1, whose
data offset lies in the run mapping where byte `b` is stored: the switch
breaks (the loop goes on to the next `KVM_RUN`) and exactly one byte, `b`, is
written with `putchar`. -/
theorem console_out_emits_data_byte (K : KvmConsts) (r : RunResult) (rest : List RunResult)
    (b : Byte) (hio : IsConsoleOut K r.run)
    (hb : r.run.mapping.get? r.run.io.data_offset = some b) :
    dispatch K r.run = (.next, [.putchar b]) ∧
    runLoop K (r :: rest) = (runLoop K rest).after [.call .KVM_RUN, .putchar b] ∧
    consoleBytes [Event.call .KVM_RUN, .putchar b] = [b] := by
  have hd := dispatch_console K r.run b hio hb
  exact ⟨hd, runLoop_next K r rest _ hd, rfl⟩

/-- C1 at a concrete input: a console-out exit with byte 0x41 at offset 4 of
an 8-byte mapping, followed by a halt. -/
theorem console_out_emits_data_byte_witness :
    IsConsoleOut linuxConsts (consoleOutRun 0x41) ∧
    (consoleOutRun 0x41).mapping.get? (consoleOutRun 0x41).io.data_offset = some 0x41 ∧
    dispatch linuxConsts (consoleOutRun 0x41) = (.next, [.putchar 0x41]) ∧
    runLoop linuxConsts [{ ret := 0, run := consoleOutRun 0x41 }, { ret := 0, run := haltRun }] =
      (runLoop linuxConsts [{ ret := 0, run := haltRun }]).after
        [.call .KVM_RUN, .putchar 0x41] :=
  have h := console_out_emits_data_byte linuxConsts { ret := 0, run := consoleOutRun 0x41 }
    [{ ret := 0, run := haltRun }] 0x41 (by decide) (by decide)
  ⟨by decide, by decide, h.1, h.2.1⟩

/-- C2. An I/O exit in which the direction is not out, or the size is not 1,
or the port is not 0x3f8, or the count is not 1: the process ends with status 1
after the diagnostic `unhandled KVM_EXIT_IO`, whatever later `KVM_RUN` calls
would return, and nothing is written with `putchar`. -/
theorem other_io_exit_fails (K : KvmConsts) (r : RunResult) (rest : List RunResult)
    (hio : r.run.exit_reason = K.KVM_EXIT_IO)
    (hbad : r.run.io.direction ≠ K.KVM_EXIT_IO_OUT ∨ r.run.io.size ≠ 1 ∨
      r.run.io.port ≠ 0x3f8 ∨ r.run.io.count ≠ 1) :
    dispatch K r.run = (.exit 1, [.errx 1 "unhandled KVM_EXIT_IO" []]) ∧
    runLoop K (r :: rest) =
      { trace := [.call .KVM_RUN, .errx 1 "unhandled KVM_EXIT_IO" []], status := .exited 1 } ∧
    consoleBytes (runLoop K (r :: rest)).trace = [] ∧
    runCalls (runLoop K (r :: rest)).trace = 1 := by
  have hd := dispatch_io_other K r.run hio (by tauto)
  have hl := runLoop_exit K r rest _ _ hd
  refine ⟨hd, hl, ?_, ?_⟩ <;> rw [hl] <;> rfl

/-- C2 at a concrete input: an `in` of one byte from port 0x3f8. -/
theorem other_io_exit_fails_witness :
    consoleInRun.exit_reason = linuxConsts.KVM_EXIT_IO ∧
    consoleInRun.io.direction ≠ linuxConsts.KVM_EXIT_IO_OUT ∧
    runLoop linuxConsts [{ ret := 0, run := consoleInRun }, { ret := 0, run := haltRun }] =
      { trace := [.call .KVM_RUN, .errx 1 "unhandled KVM_EXIT_IO" []], status := .exited 1 } :=
  ⟨rfl, by decide,
    (other_io_exit_fails linuxConsts { ret := 0, run := consoleInRun }
      [{ ret := 0, run := haltRun }] rfl (Or.inl (by decide))).2.1⟩

/-- C3 on the code: an exit with reason 8, none of the four `case` labels, does
not end the process; the loop issues `KVM_RUN` again and, the guest halting
next, `main` returns 0. -/
theorem unrecognized_exit_issues_next_run :
    IsUnrecognized linuxConsts shutdownRun ∧
    dispatch linuxConsts shutdownRun = (.next, []) ∧
    runLoop linuxConsts [{ ret := 0, run := shutdownRun }, { ret := 0, run := haltRun }] =
      { trace := [.call .KVM_RUN, .call .KVM_RUN, .puts "KVM_EXIT_HLT"], status := .exited 0 } :=
  ⟨by decide, rfl, rfl⟩

/-- C4. When the first exit is a halt, the loop makes exactly one `KVM_RUN`
call, writes nothing with `putchar` (only the line `KVM_EXIT_HLT` with `puts`),
and `main` returns 0, whatever later `KVM_RUN` calls would return. -/
theorem halt_first_returns_zero (K : KvmConsts) (r : RunResult) (rest : List RunResult)
    (hh : r.run.exit_reason = K.KVM_EXIT_HLT) :
    runLoop K (r :: rest) =
      { trace := [.call .KVM_RUN, .puts "KVM_EXIT_HLT"], status := .exited 0 } ∧
    runCalls (runLoop K (r :: rest)).trace = 1 ∧
    consoleBytes (runLoop K (r :: rest)).trace = [] ∧
    (runLoop K (r :: rest)).status = .exited 0 := by
  have hl := runLoop_exit K r rest _ _ (dispatch_hlt K r.run hh)
  refine ⟨hl, ?_, ?_, ?_⟩ <;> rw [hl] <;> rfl

/-- C4 at a concrete input: a halt followed by a console-out exit that is
never handled. -/
theorem halt_first_returns_zero_witness :
    haltRun.exit_reason = linuxConsts.KVM_EXIT_HLT ∧
    runLoop linuxConsts [{ ret := 0, run := haltRun }, { ret := 0, run := consoleOutRun 0x41 }] =
      { trace := [.call .KVM_RUN, .puts "KVM_EXIT_HLT"], status := .exited 0 } :=
  ⟨rfl, (halt_first_returns_zero linuxConsts { ret := 0, run := haltRun }
    [{ ret := 0, run := consoleOutRun 0x41 }] rfl).1⟩

/-- C5. When the loop receives console-out exits `rs` whose data bytes are
`bs` (pairwise, in order), followed by anything, handling them is exactly one
`KVM_RUN` and one `putchar` per byte, in order; so the bytes written while
handling them are `bs`, with one `KVM_RUN` per byte, and if nothing follows,
`bs` is all the loop writes. -/
theorem console_bytes_in_order (K : KvmConsts) (bs : List Byte) (rs rest : List RunResult)
    (h : List.Forall₂
      (fun r b => IsConsoleOut K r.run ∧ r.run.mapping.get? r.run.io.data_offset = some b)
      rs bs) :
    runLoop K (rs ++ rest) = (runLoop K rest).after (consoleTrace bs) ∧
    consoleBytes (consoleTrace bs) = bs ∧
    runCalls (consoleTrace bs) = bs.length ∧
    consoleBytes (runLoop K (rs ++ rest)).trace = bs ++ consoleBytes (runLoop K rest).trace ∧
    consoleBytes (runLoop K rs).trace = bs := by
  have key : ∀ tail : List RunResult,
      runLoop K (rs ++ tail) = (runLoop K tail).after (consoleTrace bs) := by
    intro tail
    induction h with
    | nil => simp [consoleTrace, Result.after]
    | cons hrb _ ih =>
      rw [List.cons_append, runLoop_next K _ _ _ (dispatch_console K _ _ hrb.1 hrb.2), ih]
      simp [consoleTrace, Result.after]
  refine ⟨key rest, consoleBytes_consoleTrace bs, runCalls_consoleTrace bs, ?_, ?_⟩
  · rw [key rest]
    simp [Result.after, consoleBytes_append, consoleBytes_consoleTrace]
  · have h0 := key []
    rw [List.append_nil] at h0
    rw [h0]
    simp [Result.after, consoleBytes_append, consoleBytes_consoleTrace, runLoop, consoleBytes]

/-- C5 at a concrete input: the bytes 0x34 and 0x0a, then a halt. -/
theorem console_bytes_in_order_witness :
    consoleBytes (runLoop linuxConsts
      [{ ret := 0, run := consoleOutRun 0x34 }, { ret := 0, run := consoleOutRun 0x0a },
       { ret := 0, run := haltRun }]).trace
      = [0x34, 0x0a] ++ consoleBytes (runLoop linuxConsts [{ ret := 0, run := haltRun }]).trace :=
  (console_bytes_in_order linuxConsts [0x34, 0x0a]
    [{ ret := 0, run := consoleOutRun 0x34 }, { ret := 0, run := consoleOutRun 0x0a }]
    [{ ret := 0, run := haltRun }]
    (.cons ⟨by decide, by decide⟩ (.cons ⟨by decide, by decide⟩ .nil))).2.2.2.1

/-- C6. An entry-failure exit or an internal-error exit ends the process with
status 1 after exactly one `KVM_RUN`, with nothing written with `putchar`; the
diagnostic carries `hardware_entry_failure_reason`, respectively `suberror`. -/
theorem guest_fault_exit_fails (K : KvmConsts) (r : RunResult) (rest : List RunResult)
    (h : r.run.exit_reason = K.KVM_EXIT_FAIL_ENTRY ∨
      r.run.exit_reason = K.KVM_EXIT_INTERNAL_ERROR) :
    (runLoop K (r :: rest)).status = .exited 1 ∧
    consoleBytes (runLoop K (r :: rest)).trace = [] ∧
    runCalls (runLoop K (r :: rest)).trace = 1 ∧
    (r.run.exit_reason = K.KVM_EXIT_FAIL_ENTRY →
      (runLoop K (r :: rest)).trace = [.call .KVM_RUN,
        .errx 1 "KVM_EXIT_FAIL_ENTRY: hardware_entry_failure_reason = 0x%llx"
          [(r.run.hardware_entry_failure_reason : Int)]]) ∧
    (r.run.exit_reason = K.KVM_EXIT_INTERNAL_ERROR →
      (runLoop K (r :: rest)).trace = [.call .KVM_RUN,
        .errx 1 "KVM_EXIT_INTERNAL_ERROR: suberror = 0x%x" [(r.run.suberror : Int)]]) := by
  have hf : r.run.exit_reason = K.KVM_EXIT_FAIL_ENTRY → runLoop K (r :: rest) = _ :=
    fun e => runLoop_exit K r rest _ _ (dispatch_fail_entry K r.run e)
  have hi : r.run.exit_reason = K.KVM_EXIT_INTERNAL_ERROR → runLoop K (r :: rest) = _ :=
    fun e => runLoop_exit K r rest _ _ (dispatch_internal_error K r.run e)
  refine ⟨?_, ?_, ?_, fun e => by rw [hf e], fun e => by rw [hi e]⟩ <;>
    rcases h with e | e
  all_goals first | (rw [hf e] <;> rfl) | (rw [hi e] <;> rfl)

/-- C6 at two concrete inputs: an entry failure with reason 0x80000021 and an
internal error with suberror 1, each followed by a halt. -/
theorem guest_fault_exit_fails_witness :
    (runLoop linuxConsts
      [{ ret := 0, run := failEntryRun }, { ret := 0, run := haltRun }]).status = .exited 1 ∧
    (runLoop linuxConsts
      [{ ret := 0, run := failEntryRun }, { ret := 0, run := haltRun }]).trace =
      [.call .KVM_RUN,
        .errx 1 "KVM_EXIT_FAIL_ENTRY: hardware_entry_failure_reason = 0x%llx" [0x80000021]] ∧
    (runLoop linuxConsts
      [{ ret := 0, run := internalErrorRun }, { ret := 0, run := haltRun }]).trace =
      [.call .KVM_RUN, .errx 1 "KVM_EXIT_INTERNAL_ERROR: suberror = 0x%x" [1]] :=
  have h1 := guest_fault_exit_fails linuxConsts { ret := 0, run := failEntryRun }
    [{ ret := 0, run := haltRun }] (Or.inl rfl)
  have h2 := guest_fault_exit_fails linuxConsts { ret := 0, run := internalErrorRun }
    [{ ret := 0, run := haltRun }] (Or.inr rfl)
  ⟨h1.1, h1.2.2.2.1 rfl, h2.2.2.2.2 rfl⟩

/-- C7 on the code: a `KVM_RUN` that returns -1 and leaves the run structure
of the previous console-out exit in place is dispatched like a fresh exit: the
byte 0x41 is written a second time, the loop goes on, and `main` returns 0. -/
theorem failed_resume_is_dispatched :
    runLoop linuxConsts failedResumeRuns =
      { trace := [.call .KVM_RUN, .putchar 0x41, .call .KVM_RUN, .putchar 0x41,
                  .call .KVM_RUN, .puts "KVM_EXIT_HLT"],
        status := .exited 0 } :=
  rfl

/-- C8. The process stops at the API-version check (status 1, no call other
than `open` and `KVM_GET_API_VERSION` made, so no VM is created) exactly when
the reported version is not 12; the extension check is reached exactly when
the version is 12. -/
theorem api_version_check (K : KvmConsts) (env : Env) :
    (env.get_api_version ≠ 12 ↔
      ((main K env).status = .exited 1 ∧
        ∀ c, Event.call c ∈ (main K env).trace → c = .open_dev_kvm ∨ c = .KVM_GET_API_VERSION)) ∧
    (env.get_api_version = 12 ↔ Event.call .KVM_CHECK_EXTENSION ∈ (main K env).trace) := by
  by_cases hv : env.get_api_version = 12
  · have hmem : Event.call .KVM_CHECK_EXTENSION ∈ (main K env).trace := by
      unfold main
      simp [hv, Result.after]
    refine ⟨⟨fun h => absurd hv h, fun h => ?_⟩, ⟨fun _ => hmem, fun _ => hv⟩⟩
    have := h.2 _ hmem
    simp at this
  · have hm : (main K env).status = .exited 1 ∧
        ∀ c, Event.call c ∈ (main K env).trace → c = .open_dev_kvm ∨ c = .KVM_GET_API_VERSION := by
      unfold main
      by_cases h1 : env.get_api_version = -1
      · simp [h1, Result.after]
      · simp [h1, hv, Result.after]
    refine ⟨⟨fun _ => hm, fun _ => hv⟩, ⟨fun h => absurd h hv, fun h => ?_⟩⟩
    have := hm.2 _ h
    simp at this

/-- C9 on the code: with `KVM_SET_REGS` returning -1, `main` still issues
`KVM_RUN` and returns 0. -/
theorem setup_failure_reaches_run :
    setRegsFailsEnv.set_regs = -1 ∧
    Event.call .KVM_RUN ∈ (main linuxConsts setRegsFailsEnv).trace ∧
    runCalls (main linuxConsts setRegsFailsEnv).trace = 1 ∧
    (main linuxConsts setRegsFailsEnv).status = .exited 0 :=
  ⟨rfl, by decide, by decide, by decide⟩

/-- C10. The reference guest (`code` at offset 0 of the page registered at
guest-physical 0x1000, `rip = 0x1000`, `rax = 2`, `rbx = 2`, `rflags = 2`)
exits with `out` of byte 52 (the character 4) to port 0x3f8, `out` of byte 10
(newline) to port 0x3f8, and `hlt`.  When setup succeeds and the first three
`KVM_RUN` calls return these exits, `main` writes with `putchar` exactly the
bytes 52 and 10 in that order, makes exactly three `KVM_RUN` calls and
returns 0. -/
theorem reference_guest_end_to_end (K : KvmConsts) (env : Env) (fuel off : Nat)
    (base : KvmRun) (rest : List RunResult)
    (hv : env.get_api_version = 12) (hx : env.check_extension ≠ -1)
    (hx0 : env.check_extension ≠ 0) (hmem : env.mmap_mem_ok = true)
    (hmalloc : env.malloc_ok = true) (hrun : env.mmap_run_ok = true)
    (hf : 4 ≤ fuel) (hoff : off < base.mapping.length)
    (hruns : env.runs = (guestExits region mem cs fuel 3 regs).map (exitRun K off base) ++ rest) :
    guestExits region mem cs fuel 3 regs = [.out 0x3f8 52, .out 0x3f8 10, .hlt] ∧
    runLoop K env.runs =
      { trace := [.call .KVM_RUN, .putchar 52, .call .KVM_RUN, .putchar 10, .call .KVM_RUN,
                  .puts "KVM_EXIT_HLT"],
        status := .exited 0 } ∧
    Event.call (.KVM_SET_USER_MEMORY_REGION region) ∈ (main K env).trace ∧
    Event.call (.KVM_SET_SREGS cs) ∈ (main K env).trace ∧
    Event.call (.KVM_SET_REGS regs) ∈ (main K env).trace ∧
    consoleBytes (main K env).trace = [52, 10] ∧
    runCalls (main K env).trace = 3 ∧
    (main K env).status = .exited 0 := by
  have hg := guestExits_reference fuel hf
  have hloop : runLoop K env.runs =
      { trace := [.call .KVM_RUN, .putchar 52, .call .KVM_RUN, .putchar 10, .call .KVM_RUN,
                  .puts "KVM_EXIT_HLT"],
        status := .exited 0 } := by
    rw [hruns, hg]
    simp only [List.map_cons, List.map_nil, List.cons_append, List.nil_append]
    have h1 := exitRun_out_console K off base 52 hoff
    have h2 := exitRun_out_console K off base 10 hoff
    rw [runLoop_next K _ _ _ (dispatch_console K _ _ h1.1 h1.2),
      runLoop_next K _ _ _ (dispatch_console K _ _ h2.1 h2.2),
      runLoop_exit K _ _ _ _ (dispatch_hlt K (exitRun K off base .hlt).run rfl)]
    rfl
  have hmain := main_setup_ok K env hv hx hx0 hmem hmalloc hrun
  rw [hloop] at hmain
  refine ⟨hg, hloop, ?_, ?_, ?_, ?_, ?_, ?_⟩
  · rw [hmain]
    simp [Result.after]
  · rw [hmain]
    simp [Result.after]
  · rw [hmain]
    simp [Result.after]
  · rw [hmain]
    by_cases hneg : env.memory_encrypt_op < 0 <;> simp [hneg, Result.after, consoleBytes]
  · rw [hmain]
    by_cases hneg : env.memory_encrypt_op < 0 <;> simp [hneg, Result.after, runCalls]
  · rw [hmain]
    rfl

/-- C10 at a concrete environment: the Linux constants, every setup call
succeeding, four instructions of budget per `KVM_RUN`, data offset 4 in an
8-byte mapping. -/
theorem reference_guest_end_to_end_witness :
    (4 : Nat) < zeroRun.mapping.length ∧
    consoleBytes (main linuxConsts
      (goodEnv ((guestExits region mem cs 4 3 regs).map (exitRun linuxConsts 4 zeroRun)))).trace
      = [52, 10] ∧
    runCalls (main linuxConsts
      (goodEnv ((guestExits region mem cs 4 3 regs).map (exitRun linuxConsts 4 zeroRun)))).trace
      = 3 ∧
    (main linuxConsts
      (goodEnv ((guestExits region mem cs 4 3 regs).map (exitRun linuxConsts 4 zeroRun)))).status
      = .exited 0 :=
  have h := reference_guest_end_to_end linuxConsts
    (goodEnv ((guestExits region mem cs 4 3 regs).map (exitRun linuxConsts 4 zeroRun)))
    4 4 zeroRun [] rfl (by decide) (by decide) rfl rfl rfl (Nat.le_refl 4) (by decide)
    (List.append_nil _).symm
  ⟨by decide, h.2.2.2.2.2.1, h.2.2.2.2.2.2.1, h.2.2.2.2.2.2.2⟩

end KvmDemo
